import Mathlib

/-!
Shallow embedding of the diabetes-prediction service
(`src/api.py` and `src/dl_app.py`) in Lean 4.

Numeric values (patient fields, probabilities) are modelled as rationals
`ℚ`; decimal literals such as `0.5` denote the exact rational the source
text writes. The Keras model is an opaque artifact loaded from disk
(spec §2: a classifier that "accepts a fixed 8-dimensional numeric record
and returns a probability in [0,1]"); it is embedded as an abstract
function from a record to either a probability or a raised exception.
Python exceptions are embedded with `Except`; the two exception classes
the API code distinguishes (`ValueError` vs any other `Exception`) become
the two constructors of `Exc`.
-/

/-- Python exceptions, as far as `api.py` distinguishes them:
`except ValueError` (lines 199-200) vs `except Exception`
(lines 135-136, 201-202). `str(e)` is the carried message. -/
inductive Exc where
  | valueError (msg : String)
  | other (msg : String)
deriving DecidableEq, Repr

/-- Python `str(e)`: the message carried by the exception. -/
def Exc.message : Exc → String
  | .valueError msg => msg
  | .other msg => msg

/-- `fastapi.HTTPException(status_code=..., detail=...)`. -/
structure HTTPException where
  status_code : Nat
  detail : String
deriving DecidableEq, Repr

/-- Input schema `PredictionInput` of `api.py` lines 41-50: the 8 numeric
patient fields (a PatientRecord). Range constraints live in
`fieldConstraints` below. -/
structure PredictionInput where
  pregnancies : ℚ
  glucose : ℚ
  blood_pressure : ℚ
  skin_thickness : ℚ
  insulin : ℚ
  bmi : ℚ
  diabetes_pedigree_function : ℚ
  age : ℚ
deriving DecidableEq, Repr

/-- Output schema `PredictionOutput` of `api.py` lines 67-71. -/
structure PredictionOutput where
  prediction : Nat
  probability : ℚ
  confidence : String
deriving DecidableEq, Repr

/-- The loaded Keras model, opaque per the spec: each 8-field row is
mapped to a probability, or the inference call raises an exception.
`model.predict` on an N×8 matrix applies this row-wise. -/
def KerasModel : Type := PredictionInput → Except Exc ℚ

/-- A model whose inference never raises: every row yields a probability. -/
def liftModel (f : PredictionInput → ℚ) : KerasModel :=
  fun r => Except.ok (f r)

/-- One `pydantic.Field(..., ge=lo, le=hi)` constraint applied to the
value a record supplies for that field. -/
structure FieldConstraint where
  name : String
  ge : ℚ
  le : ℚ
  value : ℚ
deriving DecidableEq, Repr

/-- The 8 `Field(..., ge=..., le=...)` declarations of `PredictionInput`
(`api.py` lines 43-50), in declaration order, applied to a record. -/
def fieldConstraints (r : PredictionInput) : List FieldConstraint :=
  [⟨"pregnancies", 0, 17, r.pregnancies⟩,
   ⟨"glucose", 44, 199, r.glucose⟩,
   ⟨"blood_pressure", 24, 122, r.blood_pressure⟩,
   ⟨"skin_thickness", 7, 99, r.skin_thickness⟩,
   ⟨"insulin", 14, 846, r.insulin⟩,
   ⟨"bmi", 18.2, 67.1, r.bmi⟩,
   ⟨"diabetes_pedigree_function", 0.078, 2.42, r.diabetes_pedigree_function⟩,
   ⟨"age", 21, 81, r.age⟩]

/-- Pydantic validation of a request body against `PredictionInput`:
the names of the fields whose values fall outside their closed
`[ge, le]` interval (pydantic reports every violated field in its
`ValidationError`). The record is accepted iff this list is empty. -/
def validationErrors (r : PredictionInput) : List String :=
  (fieldConstraints r).filterMap
    (fun c => if c.value < c.ge ∨ c.le < c.value then some c.name else none)

/-- `api.py` lines 104-136, handler `predict_diabetes`: invoke the model
on the single-row matrix, derive the discrete label
(`prediction = int(prediction_proba > 0.5)`, line 119) and the
confidence tier (lines 122-128); any exception from the `try` block is
re-raised as `HTTPException(500, "Prediction error: ...")` (lines
135-136). -/
def predict_diabetes (model : KerasModel) (input_data : PredictionInput) :
    Except HTTPException PredictionOutput :=
  match model input_data with
  | .error e => .error ⟨500, "Prediction error: " ++ e.message⟩
  | .ok prediction_proba =>
    let prediction : Nat := if prediction_proba > 0.5 then 1 else 0
    let confidence_prob := max prediction_proba (1 - prediction_proba)
    let confidence :=
      if confidence_prob ≥ 0.8 then "High"
      else if confidence_prob ≥ 0.6 then "Medium"
      else "Low"
    .ok ⟨prediction, prediction_proba, confidence⟩

/-- FastAPI's request handling for `POST /predict`: the body is validated
against `PredictionInput` before the handler runs; a validation failure
is answered with a 422 response naming the offending fields and the
model is never invoked. -/
def predictEndpoint (model : KerasModel) (r : PredictionInput) :
    Except HTTPException PredictionOutput :=
  match validationErrors r with
  | [] => predict_diabetes model r
  | errs => .error ⟨422, String.intercalate ", " errs⟩

/-- `dl_app.py` line 42, the form handler's label rule:
`prediction = (prediction_proba > 0.5).astype(int)`. -/
def dl_app_prediction (prediction_proba : ℚ) : Nat :=
  if prediction_proba > 0.5 then 1 else 0

/-- The confidence-tier computation of `api.py` lines 122-128 (duplicated
verbatim at lines 179-186), as a function of
`confidence_prob = max(p, 1-p)`. -/
def confidenceLevel (confidence_prob : ℚ) : String :=
  if confidence_prob ≥ 0.8 then "High"
  else if confidence_prob ≥ 0.6 then "Medium"
  else "Low"

/-- Rank of a confidence tier: Low < Medium < High. -/
def tierRank (tier : String) : Nat :=
  if tier = "High" then 2 else if tier = "Medium" then 1 else 0

/-- The example record of `api.py` lines 54-63. -/
def exampleRecord : PredictionInput :=
  ⟨3, 117, 72, 29, 125, 32.3, 0.3725, 29⟩

/-- One entry appended to `results` by the loop body of `api.py`
lines 177-193: from the row index `i` (0-based, from `enumerate`) and
that row's probability `proba`, derive `patient_id = i + 1`, the label
`int(proba > 0.5)` and the confidence tier. -/
structure BatchEntry where
  patient_id : Nat
  prediction : Nat
  probability : ℚ
  confidence : String
deriving DecidableEq, Repr

/-- The response envelope of `POST /predict-batch` (`api.py`
lines 195-198). -/
structure BatchOutput where
  total_patients : Nat
  predictions : List BatchEntry
deriving DecidableEq, Repr

/-- The loop body of `api.py` lines 178-193 applied to one
`(i, proba)` pair produced by `enumerate(predictions_proba)`. -/
def rowEntry (i : Nat) (proba : ℚ) : BatchEntry :=
  let prediction : Nat := if proba > 0.5 then 1 else 0
  let confidence_prob := max proba (1 - proba)
  let confidence :=
    if confidence_prob ≥ 0.8 then "High"
    else if confidence_prob ≥ 0.6 then "Medium"
    else "Low"
  ⟨i + 1, prediction, proba, confidence⟩

/-- The `for i, proba in enumerate(predictions_proba)` loop of `api.py`
lines 177-193, accumulating `results` in iteration order starting at
index `i`. -/
def buildResults (i : Nat) : List ℚ → List BatchEntry
  | [] => []
  | proba :: rest => rowEntry i proba :: buildResults (i + 1) rest

/-- The single `model.predict(input_df, verbose=0).flatten()` call of
`api.py` line 174 on the N×8 matrix built in input order: the opaque
model maps each row to a probability (spec §2), so the batch call yields
one probability per input row in order, and an exception raised by the
inference call aborts the whole batch. -/
def modelBatch (model : KerasModel) : List PredictionInput → Except Exc (List ℚ)
  | [] => .ok []
  | patient :: rest =>
    match model patient with
    | .error e => .error e
    | .ok proba =>
      match modelBatch model rest with
      | .error e => .error e
      | .ok probas => .ok (proba :: probas)

/-- The `try` block of `api.py` lines 150-198, handler `predict_batch`:
raise `ValueError("Empty patient list")` on an empty list (lines
151-152), `ValueError("Maximum 100 patients per request")` on more than
100 patients (lines 154-155), otherwise invoke the model once on the
whole batch and build the response envelope. -/
def predictBatchTry (model : KerasModel) (patients : List PredictionInput) :
    Except Exc BatchOutput :=
  if patients.isEmpty then .error (.valueError "Empty patient list")
  else if patients.length > 100 then
    .error (.valueError "Maximum 100 patients per request")
  else
    match modelBatch model patients with
    | .error e => .error e
    | .ok predictions_proba =>
      .ok ⟨patients.length, buildResults 0 predictions_proba⟩

/-- `api.py` lines 139-202, handler `predict_batch` with its `except`
clauses: a `ValueError` escaping the `try` block becomes
`HTTPException(400, str(e))` (lines 199-200); any other exception
becomes `HTTPException(500, "Batch prediction error: ...")` (lines
201-202). -/
def predict_batch (model : KerasModel) (patients : List PredictionInput) :
    Except HTTPException BatchOutput :=
  match predictBatchTry model patients with
  | .ok out => .ok out
  | .error (.valueError msg) => .error ⟨400, msg⟩
  | .error (.other msg) => .error ⟨500, "Batch prediction error: " ++ msg⟩

/-- `api.py` lines 17-20, run once at module import: load the serialized
model from its known path; an absent artifact (`FileNotFoundError`)
aborts startup with the fatal message of line 20, before any endpoint
exists. -/
def loadModel (artifact : Option KerasModel) : Except String KerasModel :=
  match artifact with
  | none => .error ("Model file 'deep_learning_model.keras' not found. " ++
      "Please ensure it's in the root directory.")
  | some model => .ok model

/-- The running FastAPI application: it exists only after the module-level
model load succeeded, and every request handler reads this loaded model. -/
structure App where
  model : KerasModel

/-- Process startup: importing `api.py` loads the model (lines 17-20) and
only then constructs the application (line 23 onward); a load failure
propagates and the service serves no traffic. -/
def startApp (artifact : Option KerasModel) : Except String App :=
  match loadModel artifact with
  | .error msg => .error msg
  | .ok model => .ok ⟨model⟩

/-- A process environment: maps a variable name to its value when set. -/
def Env : Type := String → Option String

/-- Python `os.getenv(key, default)`. -/
def os_getenv (env : Env) (key dflt : String) : String :=
  (env key).getD dflt

/-- `api.py` line 230: `port=int(os.getenv("PORT", 8000))` — the default
8000 is already an int; a set value is parsed (`none` when `int()` would
raise). -/
def mainPort (env : Env) : Option Int :=
  match env "PORT" with
  | none => some 8000
  | some s => s.toInt?

/-- `api.py` line 231:
`reload=os.getenv("ENVIRONMENT", "development") == "development"`. -/
def mainReload (env : Env) : Bool :=
  os_getenv env "ENVIRONMENT" "development" == "development"

lemma rowEntry_eq (i : Nat) (p : ℚ) :
    rowEntry i p = ⟨i + 1, dl_app_prediction p, p, confidenceLevel (max p (1 - p))⟩ :=
  rfl

lemma predict_diabetes_of_ok {m : KerasModel} {r : PredictionInput} {p : ℚ}
    (h : m r = Except.ok p) :
    predict_diabetes m r =
      Except.ok ⟨dl_app_prediction p, p, confidenceLevel (max p (1 - p))⟩ := by
  unfold predict_diabetes
  rw [h]
  rfl

lemma confidenceLevel_high_iff (cp : ℚ) : confidenceLevel cp = "High" ↔ 0.8 ≤ cp := by
  unfold confidenceLevel
  split_ifs with h1 h2 <;> simp_all <;> intro h <;> simp_all

lemma confidenceLevel_medium_iff (cp : ℚ) :
    confidenceLevel cp = "Medium" ↔ 0.6 ≤ cp ∧ cp < 0.8 := by
  unfold confidenceLevel
  split_ifs with h1 h2 <;> simp_all <;> linarith

lemma confidenceLevel_low_iff (cp : ℚ) : confidenceLevel cp = "Low" ↔ cp < 0.6 := by
  unfold confidenceLevel
  split_ifs with h1 h2 <;> simp_all <;> linarith

lemma dl_app_prediction_one_iff (p : ℚ) : dl_app_prediction p = 1 ↔ 0.5 < p := by
  unfold dl_app_prediction
  split_ifs with h <;> simp_all

lemma dl_app_prediction_zero_iff (p : ℚ) : dl_app_prediction p = 0 ↔ p ≤ 0.5 := by
  unfold dl_app_prediction
  split_ifs with h <;> simp_all <;> linarith

/-- C1: for every probability p produced by the model, the label returned
by the single-prediction operation (`predict_diabetes`, and the identical
rule in the `dl_app.py` form handler) is 1 if p > 0.5 and 0 otherwise;
in particular p = 0.5 yields label 0. -/
theorem C1_label_rule (m : KerasModel) (r : PredictionInput) (p : ℚ)
    (h : m r = Except.ok p) :
    predict_diabetes m r =
      Except.ok ⟨dl_app_prediction p, p, confidenceLevel (max p (1 - p))⟩ ∧
    (dl_app_prediction p = 1 ↔ 0.5 < p) ∧
    (dl_app_prediction p = 0 ↔ p ≤ 0.5) ∧
    (p = 0.5 → dl_app_prediction p = 0) := by
  refine ⟨predict_diabetes_of_ok h, dl_app_prediction_one_iff p,
    dl_app_prediction_zero_iff p, fun hp => ?_⟩
  rw [(dl_app_prediction_zero_iff p), hp]

theorem C1_label_rule_witness :
    predict_diabetes (liftModel fun _ => (0.5 : ℚ)) exampleRecord =
      Except.ok ⟨dl_app_prediction 0.5, 0.5, confidenceLevel (max 0.5 (1 - 0.5))⟩ ∧
    (dl_app_prediction (0.5 : ℚ) = 1 ↔ (0.5 : ℚ) < 0.5) ∧
    (dl_app_prediction (0.5 : ℚ) = 0 ↔ (0.5 : ℚ) ≤ 0.5) ∧
    ((0.5 : ℚ) = 0.5 → dl_app_prediction (0.5 : ℚ) = 0) :=
  C1_label_rule (liftModel fun _ => (0.5 : ℚ)) exampleRecord 0.5 rfl

/-- C2: for every probability p in [0,1] with
confidence_prob = max(p, 1-p), the confidence tier — in the single
operation (`predict_diabetes`) and in each batch row (`rowEntry`) —
is "High" iff confidence_prob ≥ 0.8, "Medium" iff
0.6 ≤ confidence_prob < 0.8, and "Low" otherwise. -/
theorem C2_confidence_tiers (m : KerasModel) (r : PredictionInput) (p : ℚ)
    (h : m r = Except.ok p) (h0 : 0 ≤ p) (h1 : p ≤ 1) :
    predict_diabetes m r =
      Except.ok ⟨dl_app_prediction p, p, confidenceLevel (max p (1 - p))⟩ ∧
    (∀ i : Nat,
      rowEntry i p = ⟨i + 1, dl_app_prediction p, p, confidenceLevel (max p (1 - p))⟩) ∧
    (confidenceLevel (max p (1 - p)) = "High" ↔ 0.8 ≤ max p (1 - p)) ∧
    (confidenceLevel (max p (1 - p)) = "Medium" ↔
      0.6 ≤ max p (1 - p) ∧ max p (1 - p) < 0.8) ∧
    (confidenceLevel (max p (1 - p)) = "Low" ↔ max p (1 - p) < 0.6) :=
  ⟨predict_diabetes_of_ok h, fun i => rowEntry_eq i p,
    confidenceLevel_high_iff _, confidenceLevel_medium_iff _,
    confidenceLevel_low_iff _⟩

theorem C2_confidence_tiers_witness :
    predict_diabetes (liftModel fun _ => (0.7 : ℚ)) exampleRecord =
      Except.ok ⟨dl_app_prediction 0.7, 0.7, confidenceLevel (max 0.7 (1 - 0.7))⟩ ∧
    (∀ i : Nat,
      rowEntry i (0.7 : ℚ) =
        ⟨i + 1, dl_app_prediction 0.7, 0.7, confidenceLevel (max 0.7 (1 - 0.7))⟩) ∧
    (confidenceLevel (max (0.7 : ℚ) (1 - 0.7)) = "High" ↔ 0.8 ≤ max (0.7 : ℚ) (1 - 0.7)) ∧
    (confidenceLevel (max (0.7 : ℚ) (1 - 0.7)) = "Medium" ↔
      0.6 ≤ max (0.7 : ℚ) (1 - 0.7) ∧ max (0.7 : ℚ) (1 - 0.7) < 0.8) ∧
    (confidenceLevel (max (0.7 : ℚ) (1 - 0.7)) = "Low" ↔ max (0.7 : ℚ) (1 - 0.7) < 0.6) :=
  C2_confidence_tiers (liftModel fun _ => (0.7 : ℚ)) exampleRecord 0.7 rfl
    (by norm_num) (by norm_num)

lemma tierRank_confidenceLevel (cp : ℚ) :
    tierRank (confidenceLevel cp) =
      if cp ≥ 0.8 then 2 else if cp ≥ 0.6 then 1 else 0 := by
  unfold confidenceLevel
  split_ifs with h1 h2 <;> decide

/-- C7 counterexample: there is no "Low/Medium boundary at exactly 0.8":
at confidence_prob 0.79 the tier is already "Medium" (not "Low"), and at
0.8 it is "High" (not "Medium") — the boundary at 0.8 separates Medium
from High. -/
theorem C7_boundary_mislabel :
    confidenceLevel 0.79 = "Medium" ∧ confidenceLevel 0.79 ≠ "Low" ∧
    confidenceLevel 0.8 = "High" ∧ confidenceLevel 0.8 ≠ "Medium" := by
  refine ⟨by norm_num [confidenceLevel], ?_, by norm_num [confidenceLevel], ?_⟩ <;>
    norm_num [confidenceLevel] <;> decide

/-- C7 (amended): the confidence tier is monotonically non-decreasing in
confidence_prob (Low < Medium < High), the Low/Medium boundary is at
exactly 0.6 (0.59 gives Low, 0.60 gives Medium), and the Medium/High
boundary is at exactly 0.8 (0.79 gives Medium, 0.80 gives High); the
single-prediction operation derives its tier by this function of
max(p, 1-p). -/
theorem C7_confidence_monotone (c1 c2 : ℚ) (h : c1 ≤ c2) :
    tierRank (confidenceLevel c1) ≤ tierRank (confidenceLevel c2) ∧
    confidenceLevel 0.59 = "Low" ∧ confidenceLevel 0.6 = "Medium" ∧
    confidenceLevel 0.79 = "Medium" ∧ confidenceLevel 0.8 = "High" ∧
    (∀ (m : KerasModel) (r : PredictionInput) (p : ℚ), m r = Except.ok p →
      predict_diabetes m r =
        Except.ok ⟨dl_app_prediction p, p, confidenceLevel (max p (1 - p))⟩) := by
  refine ⟨?_, by norm_num [confidenceLevel], by norm_num [confidenceLevel],
    by norm_num [confidenceLevel], by norm_num [confidenceLevel],
    fun m r p hp => predict_diabetes_of_ok hp⟩
  rw [tierRank_confidenceLevel, tierRank_confidenceLevel]
  split_ifs <;> try omega
  all_goals exfalso; linarith

theorem C7_confidence_monotone_witness :
    tierRank (confidenceLevel 0.59) ≤ tierRank (confidenceLevel 0.8) ∧
    confidenceLevel 0.59 = "Low" ∧ confidenceLevel 0.6 = "Medium" ∧
    confidenceLevel 0.79 = "Medium" ∧ confidenceLevel 0.8 = "High" ∧
    (∀ (m : KerasModel) (r : PredictionInput) (p : ℚ), m r = Except.ok p →
      predict_diabetes m r =
        Except.ok ⟨dl_app_prediction p, p, confidenceLevel (max p (1 - p))⟩) :=
  C7_confidence_monotone 0.59 0.8 (by norm_num)

/-- C9: the single-prediction operation is deterministic — two calls with
the same fixed model and identical input records return identical
results. -/
theorem C9_deterministic (m : KerasModel) (r1 r2 : PredictionInput)
    (h : r1 = r2) :
    predict_diabetes m r1 = predict_diabetes m r2 := by
  rw [h]

/-- The record that puts every field exactly at its minimum bound. -/
def minRecord : PredictionInput := ⟨0, 44, 24, 7, 14, 18.2, 0.078, 21⟩

/-- The record that puts every field exactly at its maximum bound. -/
def maxRecord : PredictionInput := ⟨17, 199, 122, 99, 846, 67.1, 2.42, 81⟩

/-- The example record with `pregnancies` one unit above its maximum. -/
def badRecord : PredictionInput := ⟨18, 117, 72, 29, 125, 32.3, 0.3725, 29⟩

/-- C3: a value exactly at a field's minimum or maximum bound is accepted
(the all-minima and all-maxima records validate cleanly); any field value
outside its closed interval puts that field's name in the validation
errors, the request is answered with a 422 validation error naming the
offending fields, and the model is never invoked (the response does not
depend on the model); a clean record reaches the handler. -/
theorem C3_range_validation :
    validationErrors minRecord = [] ∧
    validationErrors maxRecord = [] ∧
    (∀ (r : PredictionInput) (c : FieldConstraint), c ∈ fieldConstraints r →
      (c.value < c.ge ∨ c.le < c.value) → c.name ∈ validationErrors r) ∧
    (∀ (r : PredictionInput) (m : KerasModel), validationErrors r ≠ [] →
      predictEndpoint m r =
        Except.error ⟨422, String.intercalate ", " (validationErrors r)⟩) ∧
    (∀ (r : PredictionInput) (m1 m2 : KerasModel), validationErrors r ≠ [] →
      predictEndpoint m1 r = predictEndpoint m2 r) ∧
    (∀ (r : PredictionInput) (m : KerasModel), validationErrors r = [] →
      predictEndpoint m r = predict_diabetes m r) := by
  refine ⟨by norm_num [validationErrors, fieldConstraints, minRecord],
    by norm_num [validationErrors, fieldConstraints, maxRecord], ?_, ?_, ?_, ?_⟩
  · intro r c hc h
    rw [validationErrors, List.mem_filterMap]
    exact ⟨c, hc, by rw [if_pos h]⟩
  · intro r m hne
    cases hv : validationErrors r with
    | nil => exact absurd hv hne
    | cons a l => simp [predictEndpoint, hv]
  · intro r m1 m2 hne
    cases hv : validationErrors r with
    | nil => exact absurd hv hne
    | cons a l => simp [predictEndpoint, hv]
  · intro r m hv
    simp [predictEndpoint, hv]

theorem C3_range_validation_witness :
    "pregnancies" ∈ validationErrors badRecord ∧
    predictEndpoint (liftModel fun _ => (0.9 : ℚ)) badRecord =
      Except.error ⟨422, String.intercalate ", " (validationErrors badRecord)⟩ := by
  have h := C3_range_validation
  exact ⟨h.2.2.1 badRecord ⟨"pregnancies", 0, 17, 18⟩ (by simp [fieldConstraints, badRecord])
      (by norm_num),
    h.2.2.2.1 badRecord (liftModel fun _ => (0.9 : ℚ))
      (by norm_num [validationErrors, fieldConstraints, badRecord]; simp)⟩

lemma modelBatch_lift (f : PredictionInput → ℚ) (patients : List PredictionInput) :
    modelBatch (liftModel f) patients = Except.ok (patients.map f) := by
  induction patients with
  | nil => rfl
  | cons patient rest ih => simp [modelBatch, liftModel, ih]

lemma buildResults_length (i : Nat) (ps : List ℚ) :
    (buildResults i ps).length = ps.length := by
  induction ps generalizing i with
  | nil => rfl
  | cons p rest ih => simp [buildResults, ih]

lemma buildResults_getq (ps : List ℚ) : ∀ (i j : Nat),
    (buildResults i ps).get? j = (ps.get? j).map (fun p => rowEntry (i + j) p) := by
  induction ps with
  | nil => intro i j; rfl
  | cons p rest ih =>
    intro i j
    cases j with
    | zero => rfl
    | succ j' =>
      simp only [buildResults, List.get?_cons_succ, ih (i + 1) j']
      have harith : i + 1 + j' = i + (j' + 1) := by omega
      rw [harith]

lemma predict_batch_ok (f : PredictionInput → ℚ) (patients : List PredictionInput)
    (h1 : 1 ≤ patients.length) (h2 : patients.length ≤ 100) :
    predict_batch (liftModel f) patients =
      Except.ok ⟨patients.length, buildResults 0 (patients.map f)⟩ := by
  have hnot : ¬ patients.length > 100 := by omega
  cases patients with
  | nil => simp at h1
  | cons patient rest =>
    simp only [predict_batch, predictBatchTry, List.isEmpty_cons, modelBatch_lift,
      if_neg hnot, Bool.false_eq_true, if_false]

/-- C4: the batch operation fails with the empty-batch client error on an
empty list, fails with the too-large client error when more than 100
records are supplied, and succeeds — invoking the model on every row —
for every list of 1 to 100 records. -/
theorem C4_batch_size_limits (m : KerasModel) (f : PredictionInput → ℚ)
    (patients oversized : List PredictionInput)
    (h1 : 1 ≤ patients.length) (h2 : patients.length ≤ 100)
    (hbig : oversized.length > 100) :
    predict_batch m [] = Except.error ⟨400, "Empty patient list"⟩ ∧
    predict_batch m oversized =
      Except.error ⟨400, "Maximum 100 patients per request"⟩ ∧
    predict_batch (liftModel f) patients =
      Except.ok ⟨patients.length, buildResults 0 (patients.map f)⟩ := by
  refine ⟨rfl, ?_, predict_batch_ok f patients h1 h2⟩
  cases oversized with
  | nil => simp at hbig
  | cons patient rest =>
    have hlt : 100 < rest.length + 1 := by simpa using hbig
    simp [predict_batch, predictBatchTry, hlt]

theorem C4_batch_size_limits_witness :
    predict_batch (liftModel fun _ => (0.9 : ℚ)) [] =
      Except.error ⟨400, "Empty patient list"⟩ ∧
    predict_batch (liftModel fun _ => (0.9 : ℚ)) (List.replicate 101 exampleRecord) =
      Except.error ⟨400, "Maximum 100 patients per request"⟩ ∧
    predict_batch (liftModel fun _ => (0.9 : ℚ)) (List.replicate 100 exampleRecord) =
      Except.ok ⟨(List.replicate 100 exampleRecord).length,
        buildResults 0 ((List.replicate 100 exampleRecord).map fun _ => (0.9 : ℚ))⟩ :=
  C4_batch_size_limits (liftModel fun _ => (0.9 : ℚ)) (fun _ => (0.9 : ℚ))
    (List.replicate 100 exampleRecord) (List.replicate 101 exampleRecord)
    (by simp) (by simp) (by simp)

/-- C5: on a valid batch the result has one entry per input record in
input order: the j-th entry (0-based) is derived from the j-th input
record's probability, carries `patient_id = j + 1` (1-based), and its
label, probability and confidence agree with what the single-prediction
operation returns for that record. -/
theorem C5_batch_rows (f : PredictionInput → ℚ) (patients : List PredictionInput)
    (h1 : 1 ≤ patients.length) (h2 : patients.length ≤ 100) :
    predict_batch (liftModel f) patients =
      Except.ok ⟨patients.length, buildResults 0 (patients.map f)⟩ ∧
    (buildResults 0 (patients.map f)).length = patients.length ∧
    (∀ (j : Nat) (hj : j < patients.length),
      (buildResults 0 (patients.map f)).get? j =
        some (rowEntry j (f (patients.get ⟨j, hj⟩))) ∧
      (rowEntry j (f (patients.get ⟨j, hj⟩))).patient_id = j + 1 ∧
      predict_diabetes (liftModel f) (patients.get ⟨j, hj⟩) =
        Except.ok ⟨(rowEntry j (f (patients.get ⟨j, hj⟩))).prediction,
          (rowEntry j (f (patients.get ⟨j, hj⟩))).probability,
          (rowEntry j (f (patients.get ⟨j, hj⟩))).confidence⟩) := by
  refine ⟨predict_batch_ok f patients h1 h2, ?_, ?_⟩
  · rw [buildResults_length, List.length_map]
  · intro j hj
    refine ⟨?_, by rw [rowEntry_eq], ?_⟩
    · rw [buildResults_getq, List.get?_map,
        List.get?_eq_get hj]
      simp
    · rw [rowEntry_eq]
      exact predict_diabetes_of_ok rfl

theorem C5_batch_rows_witness :
    predict_batch (liftModel fun _ => (0.9 : ℚ)) [exampleRecord] =
      Except.ok ⟨[exampleRecord].length,
        buildResults 0 ([exampleRecord].map fun _ => (0.9 : ℚ))⟩ ∧
    (buildResults 0 ([exampleRecord].map fun _ => (0.9 : ℚ))).length =
      [exampleRecord].length ∧
    (buildResults 0 ([exampleRecord].map fun _ => (0.9 : ℚ))).get? 0 =
      some (rowEntry 0 ((fun _ => (0.9 : ℚ)) ([exampleRecord].get ⟨0, by simp⟩))) := by
  have h := C5_batch_rows (fun _ => (0.9 : ℚ)) [exampleRecord] (by simp) (by simp)
  exact ⟨h.1, h.2.1, (h.2.2 0 (by simp)).1⟩

/-- A model whose inference call raises `ValueError` (as Keras does for a
malformed input shape) on every row. -/
def valueErrorModel : KerasModel :=
  fun _ => Except.error (Exc.valueError "Invalid input shape")

/-- C6 counterexample: in the batch operation, a `ValueError` raised by
the model invocation is caught by the `except ValueError` clause and
answered with a client-class 400 error carrying the raw message — not
with the server-class 500 `PredictionError`. -/
theorem C6_batch_value_error_is_400 :
    predict_batch valueErrorModel [exampleRecord] =
      Except.error ⟨400, "Invalid input shape"⟩ ∧
    (Except.error ⟨400, "Invalid input shape"⟩ :
        Except HTTPException BatchOutput) ≠
      Except.error ⟨500, "Batch prediction error: Invalid input shape"⟩ := by
  refine ⟨rfl, ?_⟩
  intro hcontra
  simp at hcontra

/-- C6 (amended): in the single-prediction operation every exception from
the model invocation is re-signaled as the 500 server error
`"Prediction error: <message>"`; in the batch operation an exception
other than `ValueError` is re-signaled as the 500 server error
`"Batch prediction error: <message>"`, but a `ValueError` raised by the
model invocation is answered as a 400 client error carrying the raw
message. No retry occurs in either operation. -/
theorem C6_model_error_mapping (m : KerasModel) (patients : List PredictionInput)
    (msg : String) (h1 : 1 ≤ patients.length) (h2 : patients.length ≤ 100) :
    (∀ (r : PredictionInput) (e : Exc), m r = Except.error e →
      predict_diabetes m r =
        Except.error ⟨500, "Prediction error: " ++ e.message⟩) ∧
    (modelBatch m patients = Except.error (Exc.other msg) →
      predict_batch m patients =
        Except.error ⟨500, "Batch prediction error: " ++ msg⟩) ∧
    (modelBatch m patients = Except.error (Exc.valueError msg) →
      predict_batch m patients = Except.error ⟨400, msg⟩) := by
  have hnot : ¬ patients.length > 100 := by omega
  refine ⟨?_, ?_, ?_⟩
  · intro r e he
    unfold predict_diabetes
    rw [he]
  · intro hmb
    cases patients with
    | nil => simp at h1
    | cons patient rest =>
      simp only [predict_batch, predictBatchTry, List.isEmpty_cons, hmb,
        if_neg hnot, Bool.false_eq_true, if_false]
  · intro hmb
    cases patients with
    | nil => simp at h1
    | cons patient rest =>
      simp only [predict_batch, predictBatchTry, List.isEmpty_cons, hmb,
        if_neg hnot, Bool.false_eq_true, if_false]

theorem C6_model_error_mapping_witness :
    predict_diabetes (fun _ => Except.error (Exc.other "backend failure"))
        exampleRecord =
      Except.error ⟨500, "Prediction error: " ++ "backend failure"⟩ ∧
    predict_batch (fun _ => Except.error (Exc.other "backend failure"))
        [exampleRecord] =
      Except.error ⟨500, "Batch prediction error: " ++ "backend failure"⟩ := by
  have h := C6_model_error_mapping
    (fun _ => Except.error (Exc.other "backend failure")) [exampleRecord]
    "backend failure" (by simp) (by simp)
  exact ⟨h.1 exampleRecord (Exc.other "backend failure") rfl, h.2.1 rfl⟩

/-- C8: an absent model artifact makes startup fail with the fatal
message of `api.py` line 20, so no application value exists and no
request can be handled; conversely every running application holds
exactly the loaded model. -/
theorem C8_startup_requires_model (artifact : Option KerasModel) (a : App)
    (h : startApp artifact = Except.ok a) :
    startApp none =
      Except.error ("Model file 'deep_learning_model.keras' not found. " ++
        "Please ensure it's in the root directory.") ∧
    (∀ b : App, startApp (none : Option KerasModel) ≠ Except.ok b) ∧
    artifact = some a.model := by
  refine ⟨rfl, ?_, ?_⟩
  · intro b hb
    simp [startApp, loadModel] at hb
  · cases artifact with
    | none => simp [startApp, loadModel] at h
    | some model =>
      simp only [startApp, loadModel, Except.ok.injEq] at h
      rw [← h]

theorem C8_startup_requires_model_witness :
    startApp (none : Option KerasModel) =
      Except.error ("Model file 'deep_learning_model.keras' not found. " ++
        "Please ensure it's in the root directory.") ∧
    some (liftModel fun _ => (0.9 : ℚ)) =
      some (App.mk (liftModel fun _ => (0.9 : ℚ))).model := by
  have h := C8_startup_requires_model (some (liftModel fun _ => (0.9 : ℚ)))
    ⟨liftModel fun _ => (0.9 : ℚ)⟩ rfl
  exact ⟨h.1, h.2.2⟩

/-- An environment with no variables set. -/
def emptyEnv : Env := fun _ => none

/-- C10 counterexample: with `PORT` and `ENVIRONMENT` both unset the
service listens on the default port 8000, but reload is ENABLED, not
disabled: `os.getenv("ENVIRONMENT", "development")` falls back to
`"development"`, which is exactly the value that turns reload on. -/
theorem C10_reload_on_by_default :
    mainPort emptyEnv = some 8000 ∧ mainReload emptyEnv = true ∧
    mainReload emptyEnv ≠ false := by
  refine ⟨rfl, rfl, ?_⟩
  intro hcontra
  simp [mainReload, os_getenv, emptyEnv] at hcontra

/-- C10 (amended): the listening port and the reload toggle come from the
process environment; with the relevant variables unset the service
listens on port 8000 with reload ENABLED, because reload is on exactly
when `ENVIRONMENT` (defaulting to `"development"`) equals
`"development"`. -/
theorem C10_env_defaults (env : Env) (hp : env "PORT" = none)
    (he : env "ENVIRONMENT" = none) :
    mainPort env = some 8000 ∧ mainReload env = true ∧
    (∀ env2 : Env, mainReload env2 = true ↔
      os_getenv env2 "ENVIRONMENT" "development" = "development") := by
  refine ⟨?_, ?_, fun env2 => ?_⟩
  · simp [mainPort, hp]
  · simp [mainReload, os_getenv, he]
  · simp [mainReload]

theorem C10_env_defaults_witness :
    mainPort emptyEnv = some 8000 ∧ mainReload emptyEnv = true := by
  have h := C10_env_defaults emptyEnv rfl rfl
  exact ⟨h.1, h.2.1⟩

theorem C9_deterministic_witness :
    predict_diabetes (liftModel fun _ => (0.9 : ℚ)) exampleRecord =
      predict_diabetes (liftModel fun _ => (0.9 : ℚ)) exampleRecord :=
  C9_deterministic (liftModel fun _ => (0.9 : ℚ)) exampleRecord exampleRecord rfl
